import Mathlib

/-!
Shallow embedding of the jura-ai RAG core (TypeScript sources under
`src/shared/schema.ts`, `src/server/storage.ts`,
`src/server/services/chat.ts`, and the `src/unnamed/part_002` variant of
the chat service), together with theorems settling the specification
claims about it.

Modelling conventions:
* JavaScript `number` similarity scores are modelled as `ℚ`.
* Asynchronous calls that may reject (database queries, LLM backends)
  are modelled as `Except String _` values or functions, passed in as
  parameters; a `try`/`catch` block becomes a `match` on the `Except`.
* The persistence layer is an explicit state record (`Store`); the
  database `gen_random_uuid()` id default is modelled by a counter and
  `defaultNow()` by a logical clock that advances on every insert.
* The pgvector `<=>` cosine-distance operator is external to the
  repository (a Postgres extension), so it is a function parameter
  `dist`; the SQL computes `similarity = 1 - dist` and orders rows by
  `dist` ascending, which is what is embedded.
* JS `string.substring(0, n)` is modelled as `String.take n` (the
  sources only slice at character boundaries of BMP text).
-/

namespace JuraAI

/-- Similarity scores and embedding coordinates (JS `number`). -/
abbrev Score := ℚ

/-- Row of the `legal_domains` table (`src/shared/schema.ts`). -/
structure LegalDomain where
  id : String
  name : String
  description : Option String
  isActive : Bool
deriving Repr, DecidableEq

/-- Row of the `law_texts` table joined with its optional domain
(`LawTextWithDomain` in `src/shared/schema.ts`).  Nullable columns are
`Option`; `lastUpdated` is a logical timestamp. -/
structure LawTextWithDomain where
  id : String
  title : String
  lawNumber : Option String
  chapter : Option String
  sectionRef : Option String
  paragraph : Option String
  content : String
  domainId : Option String
  sourceUrl : Option String
  lastUpdated : Nat
  retsinformationId : Option String
  domain : Option LegalDomain
deriving Repr, DecidableEq

/-- `LawTextWithDomain & { similarity: number }`, the row shape returned
by `DatabaseStorage.searchSimilarTexts`. -/
structure SimilarText extends LawTextWithDomain where
  similarity : Score
deriving Repr, DecidableEq

/-- Citation record as stored in the `citations` jsonb column
(`src/shared/schema.ts`). -/
structure Citation where
  lawTextId : String
  relevanceScore : Score
  snippet : String
deriving Repr, DecidableEq

/-- `LLMResponse` interface of `src/server/services/chat.ts`. -/
structure LLMResponse where
  content : String
  citations : List Citation
deriving Repr, DecidableEq

/-- Row of the `chat_messages` table. -/
structure ChatMessage where
  id : String
  sessionId : String
  role : String
  content : String
  citations : List Citation
  createdAt : Nat
deriving Repr, DecidableEq

/-- `InsertChatMessage` (id and createdAt supplied by the database). -/
structure InsertChatMessage where
  sessionId : String
  role : String
  content : String
  citations : List Citation
deriving Repr, DecidableEq

/-- Row of the `text_embeddings` table. -/
structure TextEmbeddingRow where
  id : String
  lawTextId : String
  embedding : List Score
  createdAt : Nat
deriving Repr, DecidableEq

/-- `InsertTextEmbedding` (id and createdAt supplied by the database). -/
structure InsertTextEmbedding where
  lawTextId : String
  embedding : List Score
deriving Repr, DecidableEq

/-- Database state touched by the embedded operations.  `nextId` models
the `gen_random_uuid()` id default (fresh ids), `now` the `defaultNow()`
timestamp default (a clock that advances on every insert). -/
structure Store where
  lawTexts : List LawTextWithDomain
  embeddings : List TextEmbeddingRow
  messages : List ChatMessage
  nextId : Nat
  now : Nat
deriving Repr, DecidableEq

/-! ## Corpus search (`DatabaseStorage.searchSimilarTexts`, `src/server/storage.ts`) -/

/-- `DatabaseStorage.searchSimilarTexts(queryEmbedding, domainIds, limit)`.
`corpus` is the inner join of `text_embeddings` with `law_texts` (plus the
left-joined domain, already folded into `LawTextWithDomain`); `dist` is
the pgvector `<=>` cosine-distance operator.  The SQL applies the
`inArray` domain filter only when `domainIds && domainIds.length > 0`,
orders by `embedding <=> query` ascending, limits to `limit` rows, and
selects `similarity = 1 - (embedding <=> query)`. -/
def searchSimilarTexts (dist : List Score → List Score → Score)
    (corpus : List (TextEmbeddingRow × LawTextWithDomain))
    (queryEmbedding : List Score) (domainIds : Option (List String))
    (limit : Nat) : List SimilarText :=
  let rows :=
    match domainIds with
    | some ds =>
        if ds.length > 0 then
          corpus.filter (fun r =>
            match r.2.domainId with
            | some d => ds.contains d
            | none => false)
        else corpus
    | none => corpus
  let sorted := List.insertionSort
    (fun a b : TextEmbeddingRow × LawTextWithDomain =>
      dist a.1.embedding queryEmbedding ≤ dist b.1.embedding queryEmbedding) rows
  (sorted.take limit).map (fun r =>
    { toLawTextWithDomain := r.2
      similarity := 1 - dist r.1.embedding queryEmbedding })

/-! ## Text normalization and the encoder
(`EmbeddingsService.generateEmbedding`, embeddings service source) -/

/-- The character class of the JS regex `\s` (and of `String.trim`):
ASCII whitespace, NBSP, the Unicode space separators, line separators and
the BOM. -/
def jsWhitespace (c : Char) : Bool :=
  c == ' ' || c == '\t' || c == '\n' || c == '\r' ||
  c == '\u000B' || c == '\u000C' || c == '\u00A0' || c == '\u1680' ||
  (0x2000 <= c.toNat && c.toNat <= 0x200A) ||
  c == '\u2028' || c == '\u2029' || c == '\u202F' || c == '\u205F' ||
  c == '\u3000' || c == '\uFEFF'

/-- `text.replace(/\s+/g, " ")`: every maximal run of whitespace becomes
a single space.  `prev` records whether the previous character belonged
to a (already replaced) whitespace run. -/
def collapseWs (isWs : Char → Bool) : List Char → Bool → List Char
  | [], _ => []
  | c :: cs, prev =>
    if isWs c then
      if prev then collapseWs isWs cs true
      else ' ' :: collapseWs isWs cs true
    else c :: collapseWs isWs cs false

/-- Left part of JS `String.trim`. -/
def trimLeftWs (isWs : Char → Bool) (l : List Char) : List Char :=
  l.dropWhile isWs

/-- Right part of JS `String.trim`. -/
def trimRightWs (isWs : Char → Bool) (l : List Char) : List Char :=
  (l.reverse.dropWhile isWs).reverse

/-- `text.replace(/\s+/g, " ").trim()` on a character list. -/
def normalizeWs (isWs : Char → Bool) (l : List Char) : List Char :=
  trimRightWs isWs (trimLeftWs isWs (collapseWs isWs l false))

/-- The `cleanedText` computed by `EmbeddingsService.generateEmbedding`:
`text.replace(/\s+/g, " ").trim()`. -/
def cleanText (s : String) : String :=
  (normalizeWs jsWhitespace s.toList).asString

/-- `EmbeddingsService.generateEmbedding(text)`: normalize, then run the
(black-box, deterministic for a fixed model version) feature-extraction
pipeline `model` on the cleaned text. -/
def generateEmbedding (model : String → List Score) (text : String) : List Score :=
  model (cleanText text)

/-- `EmbeddingsService.searchSimilarLawTexts(query, domainIds, limit)`:
encode the query, then delegate to `storage.searchSimilarTexts`. -/
def searchSimilarLawTexts (model : String → List Score)
    (dist : List Score → List Score → Score)
    (corpus : List (TextEmbeddingRow × LawTextWithDomain))
    (query : String) (domainIds : Option (List String)) (limit : Nat) :
    List SimilarText :=
  searchSimilarTexts dist corpus (generateEmbedding model query) domainIds limit

/-! ## String helpers used by the chat service -/

/-- First occurrence of `pat` inside a character list: `some (pre, post)`
splits the input as `pre ++ pat ++ post` at the leftmost match (the JS
`String.includes` / `String.match` search strategy). -/
def splitFirst (pat : List Char) : List Char → Option (List Char × List Char)
  | [] => if pat.isEmpty then some ([], []) else none
  | c :: cs =>
    if pat.isPrefixOf (c :: cs) then some ([], (c :: cs).drop pat.length)
    else
      match splitFirst pat cs with
      | some (pre, post) => some (c :: pre, post)
      | none => none

/-- JS `s.includes(pat)`. -/
def includesSub (s pat : String) : Bool :=
  (splitFirst pat.toList s.toList).isSome

/-- The capture group of JS `s.match(/START(.*?)END/s)` for literal
markers: the text between the leftmost occurrence of `startM` and the
first occurrence of `endM` after it (the lazy `.*?` takes the shortest
capture; in the prompts matched here each marker occurs once). -/
def matchBetween (startM endM s : String) : Option String :=
  match splitFirst startM.toList s.toList with
  | none => none
  | some (_, rest) =>
    match splitFirst endM.toList rest with
    | none => none
    | some (mid, _) => some mid.asString

/-- JS `String.trim`. -/
def jsTrim (s : String) : String :=
  (trimRightWs jsWhitespace (trimLeftWs jsWhitespace s.toList)).asString

/-- JS `s.split('\n')` (always at least one piece; a trailing separator
yields a trailing empty piece). -/
def splitOnNl : List Char → List (List Char)
  | [] => [[]]
  | c :: cs =>
    if c = '\n' then [] :: splitOnNl cs
    else
      match splitOnNl cs with
      | h :: t => (c :: h) :: t
      | [] => [[c]]

/-- If the list starts with a `[digits+]` group (the JS regex `\[\d+\]`),
return the remainder after the group. -/
def matchNumBracket : List Char → Option (List Char)
  | '[' :: rest =>
    let ds := rest.takeWhile Char.isDigit
    if ds.isEmpty then none
    else
      match rest.drop ds.length with
      | ']' :: r => some r
      | _ => none
  | _ => none

/-- Worker for `splitNumBracket`.  `fuel` only forces structural
termination; it starts at the input length and dominates it throughout,
so the `0, l, acc` fallback (which keeps the remainder unsplit) is never
reached. -/
def splitNumBracketAux : Nat → List Char → List Char → List (List Char)
  | _, [], acc => [acc.reverse]
  | 0, l, acc => [acc.reverse ++ l]
  | fuel + 1, c :: cs, acc =>
    match matchNumBracket (c :: cs) with
    | some rest => acc.reverse :: splitNumBracketAux fuel rest []
    | none => splitNumBracketAux fuel cs (c :: acc)

/-- JS `context.split(/\[\d+\]/)`: split at every `[number]` marker. -/
def splitNumBracket (s : String) : List String :=
  (splitNumBracketAux s.toList.length s.toList []).map List.asString

/-- JS `toLowerCase` on a character, for the repertoire appearing in the
chat-service keyword patterns (ASCII plus the Danish letters). -/
def jsCharLower (c : Char) : Char :=
  if c = 'Æ' then 'æ' else if c = 'Ø' then 'ø' else if c = 'Å' then 'å'
  else c.toLower

/-- JS `s.toLowerCase()` (same repertoire restriction as `jsCharLower`). -/
def jsToLower (s : String) : String :=
  (s.toList.map jsCharLower).asString

/-- JS truthiness of an optional string field inside a template literal:
`null`/`undefined` and `""` are falsy. -/
def jsTruthy : Option String → Bool
  | some s => !(s == "")
  | none => false

/-- JS `text.lawNumber || 'N/A'`. -/
def orNA (o : Option String) : String :=
  if jsTruthy o then o.getD "" else "N/A"

/-! ## Prompt composition (`ChatService.generateResponse`, current
`src/server/services/chat.ts`) -/

/-- One entry of the `context` string: the body of the
`relevantTexts.map((text, index) => ...)` template in
`ChatService.generateResponse`.  `fmt` models the JS number formatting
`(x).toFixed(1)` (black-box float rendering). -/
def contextEntry (fmt : Score → String) (index : Nat) (t : SimilarText) : String :=
  "[" ++ toString (index + 1) ++ "] " ++ t.title ++ " (" ++ orNA t.lawNumber ++
  ") - Relevance: " ++ fmt (t.similarity * 100) ++ "%\n" ++
  (if jsTruthy t.sectionRef then "§ " ++ t.sectionRef.getD "" else "") ++ " " ++
  (if jsTruthy t.paragraph then t.paragraph.getD "" else "") ++ "\n" ++
  t.content.take 500 ++ "...\n"

/-- The `context` built from the retrieved texts and `join('\n')`-ed. -/
def contextOf (fmt : Score → String) (texts : List SimilarText) : String :=
  String.intercalate "\n" (texts.enum.map (fun p => contextEntry fmt p.1 p.2))

/-- The grounded prompt of `ChatService.generateResponse` (the branch
with retrieved law texts). -/
def promptWithContext (query context : String) : String :=
  "Du er en dansk juridisk AI-assistent. Besvar følgende spørgsmål baseret på de relevante lovbestemmelser nedenfor.\n\nSPØRGSMÅL: "
  ++ query
  ++ "\n\nRELEVANTE LOVBESTEMMELSER:\n"
  ++ context
  ++ "\n\nINSTRUKTIONER:\n- Giv et klart og præcist svar på dansk baseret på de angivne lovbestemmelser\n- Referer specifikt til de relevante paragraffer og love\n- Forklar komplekse juridiske begreber i forståelige termer\n- Hvis der er usikkerhed eller manglende information, nævn det eksplicit\n- Hold svaret struktureret og let at læse\n- Brug kun informationen fra de angivne lovbestemmelser\n\nSVAR:"

/-- The fallback prompt of `ChatService.generateResponse` (no law texts
found). -/
def promptFallback (query : String) : String :=
  "Du er en dansk juridisk AI-assistent. Besvar følgende spørgsmål baseret på dansk lovgivning.\n\nSPØRGSMÅL: "
  ++ query
  ++ "\n\nINSTRUKTIONER:\n- Giv et klart og præcist svar på dansk\n- Referer til relevante danske love og regler, hvis du kender dem\n- Forklar komplekse juridiske begreber i forståelige termer\n- Vær eksplicit om eventuelle begrænsninger i dit svar\n- Anbefal at konsultere en juridisk ekspert for specifik rådgivning\n- Hold svaret struktureret og let at læse\n\nSVAR:"

/-- Prompt selection in `ChatService.generateResponse`:
`if (relevantTexts.length > 0)` use the grounded prompt, else the
fallback prompt. -/
def composePrompt (fmt : Score → String) (query : String)
    (texts : List SimilarText) : String :=
  if texts.length > 0 then promptWithContext query (contextOf fmt texts)
  else promptFallback query

/-- One element of the `relevantTexts.map(text => ...)` building the
citations in `ChatService.generateResponse`: id, the exact similarity
score, and `content.substring(0, 200) + "..."`. -/
def citationOf (t : SimilarText) : Citation :=
  { lawTextId := t.id
    relevanceScore := t.similarity
    snippet := t.content.take 200 ++ "..." }

/-! ## Local answer generation (`ChatService.callLocalLLM` and helpers) -/

/-- `ChatService.analyzeLegalQuestion(question, lawSections)`. -/
def analyzeLegalQuestion (question : String) (lawSections : List String) : String :=
  let questionLower := jsToLower question
  if lawSections.length > 0 then
    "Baseret på de relevante lovbestemmelser kan følgende vejledning gives:\n\n"
    ++ (if includesSub questionLower "opsigelse" || includesSub questionLower "ansættelse" then
          "**Ansættelsesretlige forhold:**\n- Opsigelsesvarsel afhænger af ansættelsestype og anciennitet\n- Opsigelse skal være skriftlig og begrundet\n- Særlige regler gælder for funktionærer vs. arbejdere\n"
        else if includesSub questionLower "forbruger" || includesSub questionLower "køb" then
          "**Forbrugerrettigheder:**\n- 2-årig reklamationsret ved mangler\n- Ret til afhjælpning, omlevering eller prisafslag\n- Fortrydelsesret ved fjernkøb (14 dage)\n"
        else if includesSub questionLower "selskab" then
          "**Selskabsretlige forhold:**\n- Forskellige selskabsformer har forskellige regler\n- Kapitalregler og hæftelsesforhold varierer\n- Ledelsesansvar er specificeret i lovgivningen\n"
        else
          "**Juridisk analyse:**\n- De fundne lovbestemmelser giver grundlag for rådgivning\n- Specifikke forhold i din situation kan påvirke det juridiske resultat\n- Professionel juridisk bistand anbefales ved komplekse sager\n")
  else
    "Ingen specifikke lovbestemmelser blev fundet for dette spørgsmål.\n\n"

/-- One bullet of the `lawSections.slice(0, 3).forEach` loop in
`ChatService.generateResponseWithContext`: first line of the trimmed
section, trimmed again (JS `split('\n')` always yields at least one
line, so the `lines.length > 0` guard always passes). -/
def sectionBullet (sec : String) : String :=
  let lines := splitOnNl (jsTrim sec).toList
  if lines.length > 0 then "- " ++ jsTrim lines.headI.asString ++ "\n" else ""

/-- `ChatService.generateResponseWithContext(question, context)`. -/
def generateResponseWithContext (question context : String) : String :=
  let lawSections := (splitNumBracket context).filter (fun s => !(jsTrim s == ""))
  "**Juridisk vejledning baseret på relevante lovbestemmelser:**\n\n"
  ++ analyzeLegalQuestion question lawSections
  ++ (if lawSections.length > 0 then
        "\n\n**Relevante lovbestemmelser:**\n"
        ++ String.join ((lawSections.take 3).map sectionBullet)
      else "")
  ++ "\n\n*Dette er juridisk vejledning baseret på danske lovbestemmelser og erstatter ikke professionel juridisk rådgivning ved komplekse sager.*"

/-- `ChatService.generateGeneralLegalGuidance(question)`. -/
def generateGeneralLegalGuidance (question : String) : String :=
  let questionLower := jsToLower question
  "**Juridisk vejledning:**\n\n"
  ++ (if includesSub questionLower "opsigelse" || includesSub questionLower "ansættelse" then
        "Vedrørende arbejdsretlige spørgsmål anbefales det at konsultere:\n- Funktionærloven for funktionærer\n- Relevante kollektive overenskomster\n- Arbejdsmiljøloven for sikkerhedsspørgsmål\n"
      else if includesSub questionLower "forbruger" || includesSub questionLower "køb" then
        "Vedrørende forbrugerrettigheder:\n- Købeloven giver omfattende beskyttelse\n- Forbrugeraftaleloven regulerer fjernkøb\n- Markedsføringsloven beskytter mod vildledning\n"
      else if includesSub questionLower "selskab" || includesSub questionLower "virksomhed" then
        "Vedrørende selskabsretlige forhold:\n- Selskabsloven regulerer A/S og ApS\n- Forskellige selskabsformer har forskellige hæftelsesregler\n- Ledelsesansvar er reguleret i selskabslovgivningen\n"
      else if includesSub questionLower "skat" || includesSub questionLower "moms" then
        "Vedrørende skatteretlige spørgsmål:\n- Skattelovgivningen er kompleks og ændres ofte\n- Professionel rådgivning er særligt vigtig på skatteområdet\n- SKAT har vejledninger på deres hjemmeside\n"
      else
        "For at give mere specifik juridisk vejledning har jeg brug for flere detaljer om din situation.\n\n**Generelle anbefalinger:**\n- Konsulter relevante lovbestemmelser\n- Søg professionel juridisk rådgivning ved komplekse spørgsmål\n- Dokumenter relevante forhold grundigt\n")
  ++ "\n\n**Næste skridt:**\nFor mere specifik hjælp, beskriv venligst din situation mere detaljeret, så jeg kan søge efter relevante lovbestemmelser.\n\n*Denne vejledning er generel og erstatter ikke professionel juridisk rådgivning.*"

/-- `ChatService.generateContextAwareResponse(prompt)`: re-parse the
question and context out of the composed prompt and dispatch. -/
def generateContextAwareResponse (prompt : String) : String :=
  let hasLegalContext := includesSub prompt "RELEVANTE LOVBESTEMMELSER:"
  if hasLegalContext then
    let question :=
      match matchBetween "SPØRGSMÅL: " "\n\nRELEVANTE LOVBESTEMMELSER:" prompt with
      | some q => jsTrim q
      | none => ""
    let context :=
      match matchBetween "RELEVANTE LOVBESTEMMELSER:\n" "\n\nINSTRUKTIONER:" prompt with
      | some c => jsTrim c
      | none => ""
    generateResponseWithContext question context
  else
    let question :=
      match matchBetween "SPØRGSMÅL: " "\n\nINSTRUKTIONER:" prompt with
      | some q => jsTrim q
      | none => ""
    generateGeneralLegalGuidance question

/-- `ChatService.callLocalLLM(prompt)`. -/
def callLocalLLM (prompt : String) : String :=
  generateContextAwareResponse prompt

/-- `ChatService.generateIntelligentFallback(prompt)`: the fixed apology
message returned when every backend failed (the argument is unused in
the source as well). -/
def generateIntelligentFallback (_prompt : String) : String :=
  "**Systemmeddelelse:**\n\nJeg arbejder på at analysere dit juridiske spørgsmål. Systemet bruger lokal AI-behandling for at sikre privathed og sikkerhed.\n\n**Midlertidig assistance:**\n- Kontroller de relevante lovbestemmelser i Retsinformation\n- Søg efter lignende juridiske cases\n- Konsulter en professionel juridisk rådgiver ved komplekse spørgsmål\n\n**Teknisk note:** Den lokale AI-model indlæses for at give mere præcise svar baseret på dansk lovgivning.\n\n*Prøv venligst igen om et øjeblik, mens systemet færdiggør analysen.*"

/-- Body of the `try` block of `ChatService.callLLM`: the local backend
when `useLocalLLM`, otherwise the `throw new Error("External LLM not
configured")` path. -/
def callLLMBody (useLocalLLM : Bool) (prompt : String) : Except String String :=
  if useLocalLLM then Except.ok (callLocalLLM prompt)
  else Except.error "External LLM not configured"

/-- `ChatService.callLLM(prompt)`: attempt the configured backend, and
on any failure fall back to `generateIntelligentFallback`. -/
def callLLM (useLocalLLM : Bool) (prompt : String) : String :=
  match callLLMBody useLocalLLM prompt with
  | Except.ok s => s
  | Except.error _ => generateIntelligentFallback prompt

/-! ## `ChatService.generateResponse` (current `src/server/services/chat.ts`) -/

/-- `ChatService.generateResponse(query, domainIds, sessionId)` with the
two awaited effects abstracted: `retrieval` is the result of
`embeddingsService.searchSimilarLawTexts(query, domainIds, 5)` and `llm`
the result of `this.callLLM(prompt)` (total in the running system, see
`callLLM`).  The surrounding `try`/`catch` is the outer `match`: any
rejection becomes the fixed Danish error response with empty
citations. -/
def generateResponseM (fmt : Score → String)
    (retrieval : Except String (List SimilarText))
    (llm : String → Except String String) (query : String) : LLMResponse :=
  match retrieval with
  | Except.error _ =>
    { content := "Der opstod en fejl ved generering af svar. Prøv venligst igen."
      citations := [] }
  | Except.ok relevantTexts =>
    let prompt := composePrompt fmt query relevantTexts
    match llm prompt with
    | Except.error _ =>
      { content := "Der opstod en fejl ved generering af svar. Prøv venligst igen."
        citations := [] }
    | Except.ok content =>
      { content := content, citations := relevantTexts.map citationOf }

/-- `ChatService.generateResponse` instantiated with the system's actual
effects: semantic retrieval over the store and the total local LLM. -/
def generateResponse (fmt : Score → String) (model : String → List Score)
    (dist : List Score → List Score → Score)
    (corpus : List (TextEmbeddingRow × LawTextWithDomain))
    (query : String) (domainIds : Option (List String)) : LLMResponse :=
  generateResponseM fmt
    (Except.ok (searchSimilarLawTexts model dist corpus query domainIds 5))
    (fun p => Except.ok (callLLM true p)) query

/-! ## Persistence operations (`DatabaseStorage`, `src/server/storage.ts`) -/

/-- `DatabaseStorage.createChatMessage(message)`: insert a row; the
database fills `id` (`gen_random_uuid()`, modelled as a fresh counter
id) and `createdAt` (`defaultNow()`, modelled as the advancing clock). -/
def createChatMessage (m : InsertChatMessage) (st : Store) :
    ChatMessage × Store :=
  let msg : ChatMessage :=
    { id := "msg-" ++ toString st.nextId
      sessionId := m.sessionId
      role := m.role
      content := m.content
      citations := m.citations
      createdAt := st.now }
  (msg, { st with
            messages := st.messages ++ [msg]
            nextId := st.nextId + 1
            now := st.now + 1 })

/-- `DatabaseStorage.getChatMessages(sessionId)`: rows whose
`session_id` equals `sessionId`, ordered by `created_at` (the
citation-hydration into `citedLawTexts` is dropped; no claim touches
it). -/
def getChatMessages (st : Store) (sessionId : String) : List ChatMessage :=
  List.insertionSort (fun a b => a.createdAt ≤ b.createdAt)
    (st.messages.filter (fun m => m.sessionId == sessionId))

/-- `DatabaseStorage.createTextEmbedding(embedding)`: plain insert with
database-generated id and timestamp. -/
def createTextEmbedding (e : InsertTextEmbedding) (st : Store) :
    TextEmbeddingRow × Store :=
  let row : TextEmbeddingRow :=
    { id := "emb-" ++ toString st.nextId
      lawTextId := e.lawTextId
      embedding := e.embedding
      createdAt := st.now }
  (row, { st with
            embeddings := st.embeddings ++ [row]
            nextId := st.nextId + 1
            now := st.now + 1 })

/-- `DatabaseStorage.getLawTextById(id)`. -/
def getLawTextById (st : Store) (id : String) : Option LawTextWithDomain :=
  st.lawTexts.find? (fun t => t.id == id)

/-! ## Embedding maintenance (`EmbeddingsService`, embeddings service
source) -/

/-- The `textForEmbedding` built by
`EmbeddingsService.updateEmbeddingForLawText` (and by the bulk pass):
title, law number, locators and the first 1000 characters of content,
empty pieces dropped (`filter(Boolean)`), joined by single spaces. -/
def textForEmbedding (lt : LawTextWithDomain) : String :=
  String.intercalate " "
    (([lt.title, lt.lawNumber.getD "", lt.chapter.getD "",
       lt.sectionRef.getD "", lt.paragraph.getD "",
       lt.content.take 1000]).filter (fun s => !(s == "")))

/-- `EmbeddingsService.updateEmbeddingForLawText(lawTextId)`: look the
law text up (throwing when missing), re-encode its text, and persist via
`storage.createTextEmbedding` — an unconditional insert. -/
def updateEmbeddingForLawText (model : String → List Score)
    (lawTextId : String) (st : Store) : Except String Store :=
  match getLawTextById st lawTextId with
  | none => Except.error ("Law text with ID " ++ lawTextId ++ " not found")
  | some lt =>
    Except.ok (createTextEmbedding
      { lawTextId := lt.id
        embedding := generateEmbedding model (textForEmbedding lt) } st).2

/-- Number of stored embedding rows for one law text. -/
def embeddingCount (st : Store) (lawTextId : String) : Nat :=
  (st.embeddings.filter (fun e => e.lawTextId == lawTextId)).length

/-! ## Conversation orchestration (`ChatService.processUserMessage` and
`ChatService.regenerateResponse`, current `src/server/services/chat.ts`) -/

/-- `ChatService.processUserMessage(sessionId, userMessage, domainIds)`:
persist the user message, generate the answer, persist the assistant
message, touch the session (the session table itself is not modelled),
return both.  `retrieval`/`llm` are the abstracted effects fed to
`generateResponseM`. -/
def processUserMessage (fmt : Score → String)
    (retrieval : Except String (List SimilarText))
    (llm : String → Except String String)
    (sessionId userMessage : String) (st : Store) :
    (ChatMessage × ChatMessage) × Store :=
  let (savedUserMessage, st1) := createChatMessage
    { sessionId := sessionId, role := "user", content := userMessage
      citations := [] } st
  let llmResponse := generateResponseM fmt retrieval llm userMessage
  let (savedAssistantMessage, st2) := createChatMessage
    { sessionId := sessionId, role := "assistant"
      content := llmResponse.content, citations := llmResponse.citations } st1
  ((savedUserMessage, savedAssistantMessage), st2)

/-- `ChatService.regenerateResponse(messageId, domainIds)`.  Faithful to
the source: the message is looked up in `storage.getChatMessages("")`
(the empty-string session), the same-session messages are re-sorted by
creation time, the immediately preceding message must be a user message
(`sessionMessages[messageIndex - 1]`; a JS index of `-1`, or a
`findIndex` miss giving `-2`, reads `undefined` and is modelled by the
guard returning `none`), and the regenerated answer is persisted as a
new row.  Errors leave the state untouched, so the result pairs the
`Except` with the (possibly updated) state. -/
def regenerateResponse (fmt : Score → String)
    (retrieval : Except String (List SimilarText))
    (llm : String → Except String String)
    (messageId : String) (st : Store) : Except String ChatMessage × Store :=
  let allMessages := getChatMessages st ""
  match allMessages.find? (fun m => m.id == messageId) with
  | none => (Except.error "Message not found or not an assistant message", st)
  | some messageToRegenerate =>
    if messageToRegenerate.role ≠ "assistant" then
      (Except.error "Message not found or not an assistant message", st)
    else
      let sessionMessages := List.insertionSort
        (fun a b => a.createdAt ≤ b.createdAt)
        (allMessages.filter
          (fun m => m.sessionId == messageToRegenerate.sessionId))
      let messageIndex := sessionMessages.findIdx (fun m => m.id == messageId)
      let userMessage? :=
        if messageIndex = 0 ∨ sessionMessages.length ≤ messageIndex then none
        else sessionMessages.get? (messageIndex - 1)
      match userMessage? with
      | none => (Except.error "Previous user message not found", st)
      | some userMessage =>
        if userMessage.role ≠ "user" then
          (Except.error "Previous user message not found", st)
        else
          let llmResponse := generateResponseM fmt retrieval llm
            userMessage.content
          let (newMessage, st') := createChatMessage
            { sessionId := messageToRegenerate.sessionId
              role := "assistant"
              content := llmResponse.content
              citations := llmResponse.citations } st
          (Except.ok newMessage, st')

/-! ## The `src/unnamed/part_002` variant of `ChatService.generateResponse` -/

/-- The similarity floor of the `part_002` chat service:
`similarTexts.filter(text => text.similarity > 0.3)` — a hardcoded
strict threshold (the JS double literal `0.3` modelled as `3/10`). -/
def part2RelevantTexts (similarTexts : List SimilarText) : List SimilarText :=
  similarTexts.filter (fun t => (3 : Score)/10 < t.similarity)

/-- One context entry of the `part_002` prompt (no relevance
percentage). -/
def part2ContextEntry (index : Nat) (t : SimilarText) : String :=
  "[" ++ toString (index + 1) ++ "] " ++ t.title ++ " (" ++ orNA t.lawNumber ++
  ")\n" ++
  (if jsTruthy t.sectionRef then "§ " ++ t.sectionRef.getD "" else "") ++ " " ++
  (if jsTruthy t.paragraph then t.paragraph.getD "" else "") ++ "\n" ++
  t.content.take 500 ++ "...\n"

/-- The `part_002` context string. -/
def part2Context (texts : List SimilarText) : String :=
  String.intercalate "\n" (texts.enum.map (fun p => part2ContextEntry p.1 p.2))

/-- The `part_002` prompt. -/
def part2Prompt (query context : String) : String :=
  "Du er en dansk juridisk AI-assistent. Besvar følgende spørgsmål baseret på de relevante lovbestemmelser nedenfor.\n\nSPØRGSMÅL: "
  ++ query
  ++ "\n\nRELEVANTE LOVBESTEMMELSER:\n"
  ++ context
  ++ "\n\nINSTRUKTIONER:\n- Giv et klart og præcist svar på dansk\n- Referer specifikt til de relevante paragraffer\n- Forklar komplekse juridiske begreber i forståelige termer\n- Hvis der er usikkerhed, nævn det eksplicit\n- Hold svaret struktureret og let at læse\n\nSVAR:"

/-- `ChatService.generateResponse` of `src/unnamed/part_002`: search,
filter by the hardcoded `> 0.3` floor, early-return the fixed
no-results message when nothing survives, otherwise prompt the LLM and
cite the surviving texts; the `try`/`catch` again maps any rejection to
the fixed error response. -/
def part2GenerateResponseM (retrieval : Except String (List SimilarText))
    (llm : String → Except String String) (query : String) : LLMResponse :=
  match retrieval with
  | Except.error _ =>
    { content := "Der opstod en fejl ved generering af svar. Prøv venligst igen."
      citations := [] }
  | Except.ok similarTexts =>
    let relevantTexts := part2RelevantTexts similarTexts
    if relevantTexts.length = 0 then
      { content := "Jeg kunne ikke finde relevante lovbestemmelser for dit spørgsmål. Prøv at omformulere dit spørgsmål eller kontroller om de rigtige lovområder er valgt."
        citations := [] }
    else
      let prompt := part2Prompt query (part2Context relevantTexts)
      match llm prompt with
      | Except.error _ =>
        { content := "Der opstod en fejl ved generering af svar. Prøv venligst igen."
          citations := [] }
      | Except.ok content =>
        { content := content, citations := relevantTexts.map citationOf }

/-! ## Concrete fixtures used by witnesses and counterexamples -/

/-- A number formatter standing in for JS `toFixed(1)` in concrete runs. -/
def fmtFix : Score → String := fun _ => "0.0"

/-- A concrete (trivial) embedding model for concrete runs. -/
def modelFix : String → List Score := fun _ => []

/-- The system's actual `llm` effect: the total `callLLM` with the local
backend enabled, wrapped as an always-fulfilled promise. -/
def llmFix : String → Except String String := fun p => Except.ok (callLLM true p)

/-- A concrete law-text row. -/
def ltFix : LawTextWithDomain :=
  { id := "lov-1", title := "Testlov", lawNumber := none, chapter := none,
    sectionRef := none, paragraph := none, content := "Indhold om opsigelse",
    domainId := some "d1", sourceUrl := none, lastUpdated := 0,
    retsinformationId := none, domain := none }

/-- A retrieval candidate whose similarity score is negative — below
every positive floor and below the spec's default `minScore = 0`. -/
def lowScoreText : SimilarText :=
  { toLawTextWithDomain := ltFix, similarity := -(1/2) }

/-- A concrete embedding row owned by `ltFix`. -/
def embFix : TextEmbeddingRow :=
  { id := "e1", lawTextId := "lov-1", embedding := [1, 0], createdAt := 0 }

/-- The empty database. -/
def stEmpty : Store :=
  { lawTexts := [], embeddings := [], messages := [], nextId := 0, now := 0 }

/-- A persisted user message in session `s1`. -/
def msgUserFix : ChatMessage :=
  { id := "m1", sessionId := "s1", role := "user",
    content := "Hvad er opsigelsesvarslet?", citations := [], createdAt := 0 }

/-- The persisted assistant answer following `msgUserFix` in session
`s1`. -/
def msgAsstFix : ChatMessage :=
  { id := "m2", sessionId := "s1", role := "assistant", content := "Svar",
    citations := [], createdAt := 1 }

/-- A database holding one completed turn in session `s1`. -/
def stRegen : Store :=
  { lawTexts := [], embeddings := [], messages := [msgUserFix, msgAsstFix],
    nextId := 2, now := 2 }

/-- A database where `ltFix` already owns exactly one embedding row. -/
def stEmbed : Store :=
  { lawTexts := [ltFix], embeddings := [embFix], messages := [],
    nextId := 2, now := 2 }

/-! ## Theorems settling the claims -/

/-- Claim C6: for every query vector, domain filter and limit `k`, the
corpus search returns at most `k` candidates, the similarity scores
across the returned sequence are non-increasing, and both `k = 0` and an
empty corpus yield an empty result rather than an error. -/
theorem searchSimilarTexts_topK_ordered_empty
    (dist : List Score → List Score → Score)
    (corpus : List (TextEmbeddingRow × LawTextWithDomain))
    (q : List Score) (domainIds : Option (List String)) (k : Nat) :
    (searchSimilarTexts dist corpus q domainIds k).length ≤ k
    ∧ List.Pairwise (fun a b : SimilarText => b.similarity ≤ a.similarity)
        (searchSimilarTexts dist corpus q domainIds k)
    ∧ searchSimilarTexts dist corpus q domainIds 0 = []
    ∧ searchSimilarTexts dist [] q domainIds k = [] := by
  refine ⟨?_, ?_, ?_, ?_⟩
  · simp only [searchSimilarTexts, List.length_map, List.length_take]
    exact min_le_left _ _
  · simp only [searchSimilarTexts]
    rw [List.pairwise_map]
    haveI : IsTotal (TextEmbeddingRow × LawTextWithDomain)
        (fun a b => dist a.1.embedding q ≤ dist b.1.embedding q) :=
      ⟨fun a b => le_total _ _⟩
    haveI : IsTrans (TextEmbeddingRow × LawTextWithDomain)
        (fun a b => dist a.1.embedding q ≤ dist b.1.embedding q) :=
      ⟨fun a b c => le_trans⟩
    have hs := List.sorted_insertionSort
      (fun a b : TextEmbeddingRow × LawTextWithDomain =>
        dist a.1.embedding q ≤ dist b.1.embedding q)
    exact (List.Pairwise.sublist (List.take_sublist _ _) (hs _)).imp
      (fun hab => sub_le_sub_left hab 1)
  · simp [searchSimilarTexts]
  · cases domainIds <;> simp [searchSimilarTexts, List.insertionSort]

/-- Claim C10: passing `domainFilter = []` to the similarity search
behaves exactly like passing no filter, and in particular does not force
an empty result: the result size is still `min k corpusSize`. -/
theorem searchSimilarLawTexts_emptyDomainFilter
    (model : String → List Score) (dist : List Score → List Score → Score)
    (corpus : List (TextEmbeddingRow × LawTextWithDomain))
    (query : String) (k : Nat) :
    searchSimilarLawTexts model dist corpus query (some []) k
      = searchSimilarLawTexts model dist corpus query none k
    ∧ (searchSimilarLawTexts model dist corpus query (some []) k).length
      = min k corpus.length := by
  constructor
  · rfl
  · show (searchSimilarLawTexts model dist corpus query none k).length
      = min k corpus.length
    simp only [searchSimilarLawTexts, searchSimilarTexts, List.length_map,
      List.length_take]
    rw [(List.perm_insertionSort _ _).length_eq]

/-- Claim C4: for every candidate list, the citations attached to the
assistant response are a pure, order-preserving map of exactly the
candidate list used to compose the prompt — one citation per candidate
in rank order, `relevanceScore` copied without rounding, snippet a
200-character prefix of the content plus the `"..."` marker — and the
prompt handed to the LLM is composed from that same list. -/
theorem generateResponse_citations_pure_map (fmt : Score → String)
    (query : String) (texts : List SimilarText) (llm : String → String) :
    (generateResponseM fmt (Except.ok texts) (fun p => Except.ok (llm p)) query).citations
      = texts.map (fun t =>
          { lawTextId := t.id
            relevanceScore := t.similarity
            snippet := t.content.take 200 ++ "..." })
    ∧ (generateResponseM fmt (Except.ok texts) (fun p => Except.ok (llm p)) query).citations.length
      = texts.length
    ∧ (generateResponseM fmt (Except.ok texts) (fun p => Except.ok (llm p)) query).content
      = llm (composePrompt fmt query texts) := by
  refine ⟨rfl, ?_, rfl⟩
  show (texts.map citationOf).length = texts.length
  simp

/-- The composed responses all start with a fixed non-empty literal, so
appending anything keeps them non-empty. -/
theorem length_pos_append_left (s t : String) (h : 0 < s.length) :
    0 < (s ++ t).length := by
  rw [String.length_append]; omega

/-- `generateResponseWithContext` always yields non-empty text. -/
theorem generateResponseWithContext_length_pos (q c : String) :
    0 < (generateResponseWithContext q c).length := by
  unfold generateResponseWithContext
  simp only [String.length_append]
  have h : 0 < "**Juridisk vejledning baseret på relevante lovbestemmelser:**\n\n".length := by
    decide
  omega

/-- `generateGeneralLegalGuidance` always yields non-empty text. -/
theorem generateGeneralLegalGuidance_length_pos (q : String) :
    0 < (generateGeneralLegalGuidance q).length := by
  unfold generateGeneralLegalGuidance
  simp only [String.length_append]
  have h : 0 < "**Juridisk vejledning:**\n\n".length := by decide
  omega

set_option maxRecDepth 100000 in
/-- The terminal apology message is non-empty. -/
theorem generateIntelligentFallback_length_pos (p : String) :
    0 < (generateIntelligentFallback p).length := by
  unfold generateIntelligentFallback
  decide

/-- The local backend always yields non-empty text. -/
theorem generateContextAwareResponse_length_pos (p : String) :
    0 < (generateContextAwareResponse p).length := by
  simp only [generateContextAwareResponse]
  by_cases hc : includesSub p "RELEVANTE LOVBESTEMMELSER:" = true
  · rw [if_pos hc]
    exact generateResponseWithContext_length_pos _ _
  · rw [if_neg hc]
    exact generateGeneralLegalGuidance_length_pos _

/-- Claim C5: the answer generator is total — for every prompt it
returns a non-empty string and never raises; with the configured backend
failing (`useLocalLLM = false` makes the only backend throw) it returns
exactly the fixed, non-empty apology message. -/
theorem callLLM_total_nonempty (useLocalLLM : Bool) (prompt : String) :
    0 < (callLLM useLocalLLM prompt).length
    ∧ callLLM false prompt = generateIntelligentFallback prompt
    ∧ 0 < (generateIntelligentFallback prompt).length := by
  refine ⟨?_, rfl, generateIntelligentFallback_length_pos prompt⟩
  cases useLocalLLM with
  | false => exact generateIntelligentFallback_length_pos prompt
  | true => exact generateContextAwareResponse_length_pos prompt

/-- Claim C1, counterexample: the current chat service applies no
`minScore` floor at all — a candidate with similarity `-1/2` (below the
spec's default floor `0` and below every positive floor such as `0.3`)
is still returned and cited. -/
theorem generateResponse_returns_below_floor_candidate :
    ((generateResponseM fmtFix (Except.ok [lowScoreText]) llmFix
        "Hvad er opsigelsesvarslet?").citations.map
      (fun c => c.relevanceScore)) = [-(1/2)]
    ∧ (-(1/2) : Score) < 0 ∧ (-(1/2) : Score) < 3/10 := by
  refine ⟨rfl, by norm_num, by norm_num⟩

/-- Claim C1, amended: the floor is not a caller-supplied parameter.
The current `chat.ts` service cites every retrieved candidate unchanged
(no filtering whatsoever), while the `part_002` variant filters with the
hardcoded strict threshold `similarity > 0.3`. -/
theorem retrieval_floor_not_a_parameter (fmt : Score → String)
    (query : String) (texts : List SimilarText) (llm : String → String) :
    (generateResponseM fmt (Except.ok texts) (fun p => Except.ok (llm p)) query).citations.map
        (fun c => c.relevanceScore)
      = texts.map (fun t => t.similarity)
    ∧ (part2GenerateResponseM (Except.ok texts) (fun p => Except.ok (llm p)) query).citations.map
        (fun c => c.relevanceScore)
      = (texts.filter (fun t => (3 : Score)/10 < t.similarity)).map
          (fun t => t.similarity) := by
  constructor
  · show (texts.map citationOf).map (fun c => c.relevanceScore) = _
    rw [List.map_map]
    rfl
  · by_cases h : (part2RelevantTexts texts).length = 0
    · have hnil : part2RelevantTexts texts = [] := List.length_eq_zero.mp h
      have hfil : texts.filter (fun t => (3 : Score)/10 < t.similarity) = [] := hnil
      simp only [part2GenerateResponseM, if_pos h, hfil]
      rfl
    · simp only [part2GenerateResponseM, if_neg h]
      show ((part2RelevantTexts texts).map citationOf).map (fun c => c.relevanceScore) = _
      rw [List.map_map]
      rfl

/-- Claim C3: any exception raised during retrieval or answer generation
is absorbed before the orchestrator boundary and converted into an
assistant message carrying the fixed non-empty fallback text and no
citations, while the turn still completes: both the user and the
assistant message are persisted (appended to the store) and returned. -/
theorem processUserMessage_absorbs_errors
    (fmt : Score → String) (retrieval : Except String (List SimilarText))
    (llm : String → Except String String) (sessionId userText : String)
    (st : Store)
    (h : (∃ e, retrieval = Except.error e)
      ∨ (∃ ts e, retrieval = Except.ok ts
          ∧ llm (composePrompt fmt userText ts) = Except.error e)) :
    ((processUserMessage fmt retrieval llm sessionId userText st).2).messages
      = st.messages
        ++ [(processUserMessage fmt retrieval llm sessionId userText st).1.1,
            (processUserMessage fmt retrieval llm sessionId userText st).1.2]
    ∧ (processUserMessage fmt retrieval llm sessionId userText st).1.1.role = "user"
    ∧ (processUserMessage fmt retrieval llm sessionId userText st).1.1.content = userText
    ∧ (processUserMessage fmt retrieval llm sessionId userText st).1.2.role = "assistant"
    ∧ (processUserMessage fmt retrieval llm sessionId userText st).1.2.content
        = "Der opstod en fejl ved generering af svar. Prøv venligst igen."
    ∧ 0 < ((processUserMessage fmt retrieval llm sessionId userText st).1.2.content).length
    ∧ (processUserMessage fmt retrieval llm sessionId userText st).1.2.citations = [] := by
  have hresp : generateResponseM fmt retrieval llm userText
      = { content := "Der opstod en fejl ved generering af svar. Prøv venligst igen."
          citations := [] } := by
    rcases h with ⟨e, he⟩ | ⟨ts, e, hok, herr⟩
    · rw [he]
      rfl
    · rw [hok]
      simp only [generateResponseM, herr]
  have hcontent : (processUserMessage fmt retrieval llm sessionId userText st).1.2.content
      = (generateResponseM fmt retrieval llm userText).content := rfl
  have hcit : (processUserMessage fmt retrieval llm sessionId userText st).1.2.citations
      = (generateResponseM fmt retrieval llm userText).citations := rfl
  refine ⟨?_, rfl, rfl, rfl, ?_, ?_, ?_⟩
  · simp only [processUserMessage, createChatMessage]
    rw [List.append_assoc]
    rfl
  · rw [hcontent, hresp]
  · rw [hcontent, hresp]
    decide
  · rw [hcit, hresp]

/-- Claim C3, witness: a concrete turn on the empty store with the
retrieval step rejecting still persists both messages and yields the
fixed fallback assistant message with no citations. -/
theorem processUserMessage_absorbs_errors_witness :
    ((processUserMessage fmtFix (Except.error "retrieval failed") llmFix
        "session-1" "Hvad er opsigelsesvarslet?" stEmpty).2).messages
      = stEmpty.messages
        ++ [(processUserMessage fmtFix (Except.error "retrieval failed") llmFix
              "session-1" "Hvad er opsigelsesvarslet?" stEmpty).1.1,
            (processUserMessage fmtFix (Except.error "retrieval failed") llmFix
              "session-1" "Hvad er opsigelsesvarslet?" stEmpty).1.2]
    ∧ (processUserMessage fmtFix (Except.error "retrieval failed") llmFix
        "session-1" "Hvad er opsigelsesvarslet?" stEmpty).1.1.role = "user"
    ∧ (processUserMessage fmtFix (Except.error "retrieval failed") llmFix
        "session-1" "Hvad er opsigelsesvarslet?" stEmpty).1.1.content
        = "Hvad er opsigelsesvarslet?"
    ∧ (processUserMessage fmtFix (Except.error "retrieval failed") llmFix
        "session-1" "Hvad er opsigelsesvarslet?" stEmpty).1.2.role = "assistant"
    ∧ (processUserMessage fmtFix (Except.error "retrieval failed") llmFix
        "session-1" "Hvad er opsigelsesvarslet?" stEmpty).1.2.content
        = "Der opstod en fejl ved generering af svar. Prøv venligst igen."
    ∧ 0 < ((processUserMessage fmtFix (Except.error "retrieval failed") llmFix
        "session-1" "Hvad er opsigelsesvarslet?" stEmpty).1.2.content).length
    ∧ (processUserMessage fmtFix (Except.error "retrieval failed") llmFix
        "session-1" "Hvad er opsigelsesvarslet?" stEmpty).1.2.citations = [] :=
  processUserMessage_absorbs_errors fmtFix (Except.error "retrieval failed")
    llmFix "session-1" "Hvad er opsigelsesvarslet?" stEmpty
    (Or.inl ⟨"retrieval failed", rfl⟩)

/-- Claim C8: regeneration never mutates history — on success the store
is exactly the old store with the new assistant message appended (so the
original assistant message, and every other message, is unchanged), and
on failure the store is untouched. -/
theorem regenerateResponse_append_only (fmt : Score → String)
    (retrieval : Except String (List SimilarText))
    (llm : String → Except String String) (messageId : String) (st : Store) :
    match (regenerateResponse fmt retrieval llm messageId st).1 with
    | Except.ok m =>
        (regenerateResponse fmt retrieval llm messageId st).2.messages
          = st.messages ++ [m]
        ∧ m.role = "assistant"
    | Except.error _ =>
        (regenerateResponse fmt retrieval llm messageId st).2 = st := by
  obtain ⟨⟨r1, st'⟩, hr⟩ :
      ∃ p, regenerateResponse fmt retrieval llm messageId st = p := ⟨_, rfl⟩
  rw [hr]
  unfold regenerateResponse at hr
  simp only [createChatMessage] at hr
  split at hr
  all_goals try split at hr
  all_goals try split at hr
  all_goals try split at hr
  all_goals (injection hr with h1 h2; subst h1; subst h2)
  all_goals first
    | exact ⟨rfl, rfl⟩
    | rfl

/-- Claim C2 (code bug evidence): in a well-formed store, session `s1`
holds the user message `m1` immediately followed by the assistant
message `m2` — exactly the configuration in which the claim says
regeneration succeeds — yet `regenerateResponse "m2"` fails with the
NotFound error, because the source looks the message up in
`storage.getChatMessages("")`, which returns only messages of the
empty-string session. -/
theorem regenerateResponse_notFound_despite_valid_target :
    getChatMessages stRegen "s1" = [msgUserFix, msgAsstFix]
    ∧ msgAsstFix.id = "m2"
    ∧ msgAsstFix.role = "assistant"
    ∧ msgUserFix.role = "user"
    ∧ msgUserFix.createdAt < msgAsstFix.createdAt
    ∧ (regenerateResponse fmtFix (Except.ok []) llmFix "m2" stRegen).1
        = Except.error "Message not found or not an assistant message"
    ∧ (regenerateResponse fmtFix (Except.ok []) llmFix "m2" stRegen).2
        = stRegen := by
  refine ⟨rfl, rfl, rfl, rfl, ?_, rfl, rfl⟩
  decide

/-- Claim C7 (code bug evidence): starting from a store where law text
`lov-1` owns exactly one embedding row — the invariant the claim states —
`updateEmbeddingForLawText` succeeds and leaves `lov-1` with two stored
embedding rows: the operation is an unconditional insert, not an
upsert. -/
theorem updateEmbeddingForLawText_creates_duplicate :
    embeddingCount stEmbed "lov-1" = 1
    ∧ (match updateEmbeddingForLawText modelFix "lov-1" stEmbed with
       | Except.ok st' => embeddingCount st' "lov-1" = 2
       | Except.error _ => False) := by
  exact ⟨rfl, rfl⟩

/-! ## Idempotence of whitespace normalization (claim C9 machinery).
The collapse pass emits whitespace only as single `' '` characters with
no two adjacent, and trimming removes them from both ends; re-running
collapse-and-trim on such a list is the identity. -/

/-- Every whitespace character surviving `collapseWs` is the space
emitted for a run. -/
theorem collapseWs_ws_eq_space (isWs : Char → Bool) (l : List Char) :
    ∀ (prev : Bool) (c : Char), c ∈ collapseWs isWs l prev →
      isWs c = true → c = ' ' := by
  induction l with
  | nil => intro prev c hc; simp [collapseWs] at hc
  | cons d ds ih =>
    intro prev c hc hw
    cases hd : isWs d with
    | true =>
      cases prev with
      | true =>
        simp only [collapseWs, hd, if_true] at hc
        exact ih true c hc hw
      | false =>
        simp [collapseWs, hd] at hc
        rcases hc with h | h
        · exact h
        · exact ih true c h hw
    | false =>
      simp [collapseWs, hd] at hc
      rcases hc with h | h
      · subst h; rw [hd] at hw; exact absurd hw (by simp)
      · exact ih false c h hw

/-- After a whitespace run was just replaced, the next emitted character
is not whitespace. -/
theorem collapseWs_head_not_ws (isWs : Char → Bool) (l : List Char) :
    ∀ c : Char, (collapseWs isWs l true).head? = some c → isWs c = false := by
  induction l with
  | nil => intro c hc; simp [collapseWs] at hc
  | cons d ds ih =>
    intro c hc
    cases hd : isWs d with
    | true =>
      simp only [collapseWs, hd, if_true] at hc
      exact ih c hc
    | false =>
      simp [collapseWs, hd] at hc
      subst hc
      exact hd

/-- `collapseWs` never emits two adjacent whitespace characters. -/
theorem collapseWs_chain (isWs : Char → Bool) (l : List Char) :
    ∀ prev : Bool,
      List.Chain' (fun a b => isWs a = true → isWs b = false)
        (collapseWs isWs l prev) := by
  induction l with
  | nil => intro prev; simp [collapseWs]
  | cons d ds ih =>
    intro prev
    cases hd : isWs d with
    | true =>
      cases prev with
      | true => simpa only [collapseWs, hd, if_true] using ih true
      | false =>
        simp only [collapseWs, hd, if_true]
        refine List.chain'_cons'.mpr ⟨?_, ih true⟩
        intro h hh _
        exact collapseWs_head_not_ws isWs ds h (Option.mem_def.mp hh)
    | false =>
      simp [collapseWs, hd]
      refine List.chain'_cons'.mpr ⟨?_, ih false⟩
      intro h _ hcon
      rw [hd] at hcon
      exact absurd hcon (by simp)

/-- When the head is not whitespace, the `prev` flag is irrelevant. -/
theorem collapseWs_true_of_head (isWs : Char → Bool) (l : List Char)
    (h : ∀ c : Char, l.head? = some c → isWs c = false) :
    collapseWs isWs l true = collapseWs isWs l false := by
  cases l with
  | nil => rfl
  | cons d ds =>
    have hd := h d rfl
    simp [collapseWs, hd]

/-- On a list whose whitespace is exactly single interior spaces,
`collapseWs` is the identity. -/
theorem collapseWs_eq_self (isWs : Char → Bool) :
    ∀ l : List Char, (∀ c ∈ l, isWs c = true → c = ' ') →
      List.Chain' (fun a b => isWs a = true → isWs b = false) l →
      collapseWs isWs l false = l := by
  intro l
  induction l with
  | nil => intro _ _; rfl
  | cons d ds ih =>
    intro hmem hch
    cases hd : isWs d with
    | true =>
      have hd' : d = ' ' := hmem d (List.mem_cons_self d ds) hd
      have hh : ∀ c : Char, ds.head? = some c → isWs c = false := by
        intro c hc
        exact (List.chain'_cons'.mp hch).1 c (Option.mem_def.mpr hc) hd
      subst hd'
      simp [collapseWs, hd]
      rw [collapseWs_true_of_head isWs ds hh]
      exact ih (fun c hc => hmem c (List.mem_cons_of_mem _ hc)) hch.tail
    | false =>
      simp [collapseWs, hd]
      exact ih (fun c hc => hmem c (List.mem_cons_of_mem d hc)) hch.tail

/-- `dropWhile` is the identity when the head fails the predicate. -/
theorem dropWhile_eq_self_of_head {α : Type} (p : α → Bool) (l : List α)
    (h : ∀ c : α, l.head? = some c → p c = false) : l.dropWhile p = l := by
  cases l with
  | nil => rfl
  | cons a as =>
    have := h a rfl
    simp [List.dropWhile, this]

/-- Idempotence of the `replace(/\s+/g, " ").trim()` normalization. -/
theorem normalizeWs_idem (isWs : Char → Bool) (l : List Char) :
    normalizeWs isWs (normalizeWs isWs l) = normalizeWs isWs l := by
  set m := collapseWs isWs l false with hm
  have hmem_m : ∀ c ∈ m, isWs c = true → c = ' ' :=
    fun c hc => collapseWs_ws_eq_space isWs l false c hc
  have hch_m : List.Chain' (fun a b => isWs a = true → isWs b = false) m :=
    collapseWs_chain isWs l false
  -- the left-trimmed list u
  set u := trimLeftWs isWs m with hu
  obtain ⟨pre, hpre⟩ : u <:+ m := List.dropWhile_suffix _
  have hmem_u : ∀ c ∈ u, isWs c = true → c = ' ' := by
    intro c hc
    exact hmem_m c ((List.IsSuffix.sublist ⟨pre, hpre⟩).subset hc)
  have hch_u : List.Chain' (fun a b => isWs a = true → isWs b = false) u := by
    rw [← hpre] at hch_m
    exact (List.chain'_append.mp hch_m).2.1
  have hhead_u : ∀ c : Char, u.head? = some c → isWs c = false := by
    intro c hc
    have := List.head?_dropWhile_not isWs m
    rw [hu] at hc
    unfold trimLeftWs at hc
    rw [hc] at this
    exact this
  -- the fully trimmed list t
  set t := trimRightWs isWs u with ht
  have htrev : t.reverse = u.reverse.dropWhile isWs := by
    rw [ht]
    unfold trimRightWs
    rw [List.reverse_reverse]
  obtain ⟨suf, hsuf⟩ : t <+: u := by
    rw [← List.reverse_suffix]
    rw [htrev]
    exact List.dropWhile_suffix _
  have hmem_t : ∀ c ∈ t, isWs c = true → c = ' ' := by
    intro c hc
    exact hmem_u c ((List.IsPrefix.sublist ⟨suf, hsuf⟩).subset hc)
  have hch_t : List.Chain' (fun a b => isWs a = true → isWs b = false) t := by
    rw [← hsuf] at hch_u
    exact (List.chain'_append.mp hch_u).1
  have hhead_t : ∀ c : Char, t.head? = some c → isWs c = false := by
    intro c hc
    have hne : t ≠ [] := by
      intro h0
      rw [h0] at hc
      cases hc
    have hheads : u.head? = t.head? := by
      rw [← hsuf]
      exact List.head?_append_of_ne_nil t hne
    exact hhead_u c (hheads.trans hc)
  have hlast_t : ∀ c : Char, t.reverse.head? = some c → isWs c = false := by
    intro c hc
    rw [htrev] at hc
    have := List.head?_dropWhile_not isWs u.reverse
    rw [hc] at this
    exact this
  -- putting it together
  show normalizeWs isWs t = t
  unfold normalizeWs
  rw [collapseWs_eq_self isWs t hmem_t hch_t]
  unfold trimLeftWs
  rw [dropWhile_eq_self_of_head isWs t hhead_t]
  unfold trimRightWs
  rw [dropWhile_eq_self_of_head isWs t.reverse hlast_t, List.reverse_reverse]

/-- Claim C9: the encoder first normalizes its input (collapse
whitespace runs, trim); normalization is idempotent, encoding equals
encoding the normalized text, and any two inputs with the same
normalized form encode to identical vectors (for the same fixed
model). -/
theorem generateEmbedding_normalizes (model : String → List Score)
    (x y s : String) :
    cleanText (cleanText s) = cleanText s
    ∧ generateEmbedding model s = generateEmbedding model (cleanText s)
    ∧ (cleanText x = cleanText y →
        generateEmbedding model x = generateEmbedding model y) := by
  have hidem : ∀ r : String, cleanText (cleanText r) = cleanText r := by
    intro r
    show (normalizeWs jsWhitespace (cleanText r).toList).asString = _
    have h0 : (cleanText r).toList = normalizeWs jsWhitespace r.toList := rfl
    rw [h0, normalizeWs_idem]
    rfl
  refine ⟨hidem s, ?_, ?_⟩
  · show model (cleanText s) = model (cleanText (cleanText s))
    rw [hidem s]
  · intro h
    show model (cleanText x) = model (cleanText y)
    rw [h]

/-- Claim C9, witness: two concrete inputs with the same normalized form
(`"a \t b"` and `" a  b "`, both normalizing to `"a b"`) encode
identically under a concrete model. -/
theorem generateEmbedding_normalizes_witness :
    generateEmbedding (fun t => [(t.length : Score)]) "a \t b"
      = generateEmbedding (fun t => [(t.length : Score)]) " a  b " :=
  (generateEmbedding_normalizes (fun t => [(t.length : Score)])
    "a \t b" " a  b " "").2.2 (by decide)

end JuraAI
